/-
Shallow embedding of src/firefox/FrameManager.ts (frame-tree maintenance and
the navigation-wait protocol of the firefox backend).

Modelling conventions:
- JavaScript promises and races are made explicit: each entry point takes an
  environment record describing which side of each race settles first and
  what value the external watchdog promises resolve with.
- Timer arming, timer clearing, watchdog construction, watchdog disposal and
  outbound protocol commands are recorded in an explicit resource state
  (RtState), so that cleanup obligations become provable facts about the
  final state of a run.
- JavaScript object identity is modelled with an arena: frames are allocated
  at fresh indices of FMState.arena and all references between objects are
  arena indices.
- A thrown JavaScript exception is an error value threaded out of the model;
  handler functions return the state as it was at the throw point together
  with an optional error.
-/
import Mathlib

/-- Error values that the FrameManager code can produce or receive:
TimeoutError from src/Errors (constructed in both wait entry points),
the validation Error thrown by normalizeWaitUntil, and an arbitrary error
value a watchdog promise may resolve with. -/
inductive JsError
  | timeoutError (message : String)
  | validationError (message : String)
  | watchdogError (message : String)
deriving DecidableEq, Repr

/-- The two watchdog classes used by the wait protocol:
NextNavigationWatchdog and NavigationWatchdog. -/
inductive WatchdogKind
  | nextNavigation
  | navigation
deriving DecidableEq, Repr

/-- Resource state of one run of a wait entry point: whether a timeout timer
was ever armed (setTimeout called), whether an armed timer is still pending
(not yet cleared by clearTimeout), which watchdogs were constructed, which of
those are still live (not yet disposed), and the outbound commands sent. -/
structure RtState where
  timerArmed : Bool
  timerPending : Bool
  created : List WatchdogKind
  live : List WatchdogKind
  sent : List String
deriving DecidableEq, Repr

/-- Fresh resource state at entry of a call. -/
def RtState.start : RtState :=
  { timerArmed := false, timerPending := false, created := [], live := [], sent := [] }

/-- Effect of setTimeout(timeoutCallback, timeout). -/
def RtState.armTimer (s : RtState) : RtState :=
  { s with timerArmed := true, timerPending := true }

/-- Effect of clearTimeout(timeoutId); a no-op on a null or already cleared
timer, hence simply resets the pending flag. -/
def RtState.clearTimer (s : RtState) : RtState :=
  { s with timerPending := false }

/-- Effect of constructing a watchdog (new NextNavigationWatchdog or
new NavigationWatchdog). -/
def RtState.createWatchdog (s : RtState) (k : WatchdogKind) : RtState :=
  { s with created := s.created ++ [k], live := s.live ++ [k] }

/-- Effect of watchdog.dispose(): the watchdog stops being live. -/
def RtState.disposeWatchdog (s : RtState) (k : WatchdogKind) : RtState :=
  { s with live := s.live.erase k }

/-- Effect of session.send(...). -/
def RtState.sendCommand (s : RtState) (c : String) : RtState :=
  { s with sent := s.sent ++ [c] }

/-- The waitUntil argument of both entry points: a single token or an array
of tokens (options.waitUntil has type string or Array of string). -/
inductive WaitUntilArg
  | single (token : String)
  | list (tokens : List String)
deriving DecidableEq, Repr

/-- The token list a WaitUntilArg denotes after the array wrapping step of
normalizeWaitUntil. -/
def WaitUntilArg.tokens : WaitUntilArg → List String
  | .single t => [t]
  | .list l => l

/-- The for-loop of normalizeWaitUntil: throws on the first condition that is
neither "load" nor "domcontentloaded". -/
def checkWaitUntil : List String → Option JsError
  | [] => none
  | c :: rest =>
    if c ≠ "load" ∧ c ≠ "domcontentloaded" then
      some (JsError.validationError ("Unknown waitUntil condition: " ++ c))
    else
      checkWaitUntil rest

/-- normalizeWaitUntil from FrameManager.ts: wraps a non-array argument in a
one-element array, then validates every condition token, throwing a
validation error on the first unknown one, and returns the array. -/
def normalizeWaitUntil (waitUntil : WaitUntilArg) : Except JsError (List String) :=
  let arr := waitUntil.tokens
  match checkWaitUntil arr with
  | some e => .error e
  | none => .ok arr

/-- The message of the TimeoutError constructed by both entry points. -/
def timeoutMessage (timeout : Nat) : String :=
  "Navigation timeout of " ++ toString timeout ++ " ms exceeded"

/-- Options of waitForFrameNavigation: an absent field takes the documented
default (timeoutSettings.navigationTimeout() and the singleton load list). -/
structure WaitOptions where
  timeout : Option Nat
  waitUntil : Option WaitUntilArg
deriving DecidableEq, Repr

/-- Environment of one run of waitForFrameNavigation: outcome of each
Promise.race and the values the external watchdog collaborators yield.
race1TimerFirst (resp. race2TimerFirst) says the armed timeout timer fires
before the watchdog promise of the first (resp. second) race settles; it is
only consulted when a timer is armed, since an unarmed timeout promise never
resolves. -/
structure WaitForNavEnv where
  race1TimerFirst : Bool
  nextDogOutcome : Option JsError
  nextNavigationId : String
  nextNavigationUrl : String
  race2TimerFirst : Bool
  navDogOutcome : Option JsError
  navDogResponse : Option String
deriving DecidableEq, Repr

/-- FrameManager.waitForFrameNavigation. Structure mirrors the source:
normalize waitUntil, build the TimeoutError, arm the timer only for a truthy
timeout, construct and race the NextNavigationWatchdog, dispose it, throw on
a truthy race value, resolve with null on an empty navigationId, otherwise
construct and race a NavigationWatchdog, dispose it, clear the timer, then
throw or return the navigation response. Returns the call result together
with the final resource state. -/
def FrameManager.waitForFrameNavigation (defaultTimeout : Nat) (opts : WaitOptions)
    (env : WaitForNavEnv) : Except JsError (Option String) × RtState :=
  let timeout := opts.timeout.getD defaultTimeout
  let waitUntil := opts.waitUntil.getD (WaitUntilArg.list ["load"])
  match normalizeWaitUntil waitUntil with
  | .error e => (.error e, RtState.start)
  | .ok _normalizedWaitUntil =>
    let timeoutError := JsError.timeoutError (timeoutMessage timeout)
    let s1 := if timeout ≠ 0 then RtState.start.armTimer else RtState.start
    let s2 := s1.createWatchdog .nextNavigation
    let error1 : Option JsError :=
      if timeout ≠ 0 ∧ env.race1TimerFirst = true then some timeoutError
      else env.nextDogOutcome
    let s3 := s2.disposeWatchdog .nextNavigation
    match error1 with
    | some e => (.error e, s3.clearTimer)
    | none =>
      if env.nextNavigationId = "" then
        (.ok none, s3.clearTimer)
      else
        let s4 := s3.createWatchdog .navigation
        let error : Option JsError :=
          if timeout ≠ 0 ∧ env.race2TimerFirst = true then some timeoutError
          else env.navDogOutcome
        let s5 := (s4.disposeWatchdog .navigation).clearTimer
        match error with
        | some e => (.error e, s5)
        | none => (.ok env.navDogResponse, s5)

/-- Options of navigateFrame (referer is forwarded inside the navigate
command and otherwise unused by the state machine). -/
structure NavigateOptions where
  timeout : Option Nat
  waitUntil : Option WaitUntilArg
  referer : Option String
deriving DecidableEq, Repr

/-- Environment of one run of navigateFrame: the navigationId field of the
Page.navigate command response, the outcome of the single race, and the
values of the NavigationWatchdog collaborator. -/
structure NavigateEnv where
  navigationId : String
  raceTimerFirst : Bool
  navDogOutcome : Option JsError
  navDogResponse : Option String
deriving DecidableEq, Repr

/-- FrameManager.navigateFrame. Structure mirrors the source: normalize
waitUntil, send Page.navigate, return immediately with no value on an empty
navigationId, otherwise build the TimeoutError, arm the timer only for a
truthy timeout, construct and race a NavigationWatchdog, dispose it, clear
the timer, then throw or return the navigation response. -/
def FrameManager.navigateFrame (defaultTimeout : Nat) (frameId url : String)
    (opts : NavigateOptions) (env : NavigateEnv) :
    Except JsError (Option String) × RtState :=
  let timeout := opts.timeout.getD defaultTimeout
  let waitUntil := opts.waitUntil.getD (WaitUntilArg.list ["load"])
  match normalizeWaitUntil waitUntil with
  | .error e => (.error e, RtState.start)
  | .ok _normalizedWaitUntil =>
    let s1 := RtState.start.sendCommand ("Page.navigate " ++ frameId ++ " " ++ url)
    if env.navigationId = "" then
      (.ok none, s1)
    else
      let timeoutError := JsError.timeoutError (timeoutMessage timeout)
      let s2 := if timeout ≠ 0 then s1.armTimer else s1
      let s3 := s2.createWatchdog .navigation
      let error : Option JsError :=
        if timeout ≠ 0 ∧ env.raceTimerFirst = true then some timeoutError
        else env.navDogOutcome
      let s4 := (s3.disposeWatchdog .navigation).clearTimer
      match error with
      | some e => (.error e, s4)
      | none => (.ok env.navDogResponse, s4)

/-- Model of one Frame object together with its hidden FrameData record.
The frameId, lastCommittedNavigationId and firedEvents fields are the
FrameData stored on the frame under the frameData symbol (source lines 43
to 48 and 161 to 166). Modelled from the spec: the Frame class itself lives
in src/frames.ts which is not part of this repository snapshot; per the spec
data model a frame carries an optional parent reference, a current url, a
current name and a detached mark, with url and name updated by the
navigated notification and the detached mark set by the detach
notification. -/
structure FrameObj where
  parent : Option Nat
  url : String
  name : String
  detached : Bool
  frameId : String
  lastCommittedNavigationId : String
  firedEvents : List String
deriving DecidableEq, Repr

/-- Model of one registered ExecutionContext: only the optional owning frame
reference is relevant to the handlers under study. -/
structure CtxObj where
  frame : Option Nat
deriving DecidableEq, Repr

/-- Domain events emitted by the FrameManager on its event-emitter interface
(FrameManagerEvents of the source). -/
inductive DomainEvent
  | frameAttached (frame : Nat)
  | frameDetached (frame : Nat)
  | frameNavigated (frame : Nat)
  | load
  | domContentLoaded
deriving DecidableEq, Repr

/-- Exceptions a protocol-event handler can raise: the TypeError produced by
dereferencing an undefined frame, and the Error thrown by the assert helper
with its message. -/
inductive HandlerError
  | typeError
  | assertionError (message : String)
deriving DecidableEq, Repr

/-- Mutable state of a FrameManager: the frameId-to-Frame map, the
contextId-to-ExecutionContext map, the main-frame reference, the arena
giving every allocated Frame object an identity, and the log of emitted
domain events. -/
structure FMState where
  frames : List (String × Nat)
  contexts : List (String × CtxObj)
  arena : List FrameObj
  mainFrame : Option Nat
  events : List DomainEvent
deriving DecidableEq, Repr

/-- Map.prototype.get, with none for a missing key. -/
def mapGet {α : Type} : List (String × α) → String → Option α
  | [], _ => none
  | (k, v) :: rest, key => if k = key then some v else mapGet rest key

/-- Map.prototype.set: replaces the binding of an existing key, else appends
a new binding. -/
def mapSet {α : Type} : List (String × α) → String → α → List (String × α)
  | [], key, val => [(key, val)]
  | (k, v) :: rest, key, val =>
    if k = key then (key, val) :: rest else (k, v) :: mapSet rest key val

/-- Map.prototype.delete: removes the binding of the key, a no-op when the
key is absent. -/
def mapDelete {α : Type} : List (String × α) → String → List (String × α)
  | [], _ => []
  | (k, v) :: rest, key =>
    if k = key then mapDelete rest key else (k, v) :: mapDelete rest key

/-- In-place update of the arena entry at an index (identity when the index
is out of range). -/
def modifyNth {α : Type} (f : α → α) : Nat → List α → List α
  | _, [] => []
  | 0, a :: rest => f a :: rest
  | n + 1, a :: rest => a :: modifyNth f n rest

/-- Set.prototype.add on the model of a JavaScript Set as a duplicate-free
insertion-ordered list. -/
def setAdd (s : List String) (x : String) : List String :=
  if x ∈ s then s else s ++ [x]

/-- The fresh Frame object built by the frame-attached handler: FrameData is
initialized with the given frameId, an empty lastCommittedNavigationId and
an empty firedEvents set (source lines 161 to 165). Modelled from the spec:
initial url, name and detached mark of a Frame constructed by src/frames.ts
outside this snapshot. -/
def newFrame (frameId : String) (parent : Option Nat) : FrameObj :=
  { parent := parent, url := "", name := "", detached := false,
    frameId := frameId, lastCommittedNavigationId := "", firedEvents := [] }

/-- FrameManager onFrameAttached: resolve the parent (null when unknown),
create the Frame; with a null parent, assert that no main frame exists
(throwing the internal-error message otherwise, before any state is
changed) and record the new frame as main; register the frame in the map
and emit FrameAttached. -/
def FrameManager.onFrameAttached (s : FMState) (frameId parentFrameId : String) :
    FMState × Option HandlerError :=
  let parentFrame := mapGet s.frames parentFrameId
  match parentFrame with
  | none =>
    match s.mainFrame with
    | some _ => (s, some (.assertionError "INTERNAL ERROR: re-attaching main frame!"))
    | none =>
      let idx := s.arena.length
      ({ s with arena := s.arena ++ [newFrame frameId none],
                mainFrame := some idx,
                frames := mapSet s.frames frameId idx,
                events := s.events ++ [.frameAttached idx] }, none)
  | some p =>
    let idx := s.arena.length
    ({ s with arena := s.arena ++ [newFrame frameId (some p)],
              frames := mapSet s.frames frameId idx,
              events := s.events ++ [.frameAttached idx] }, none)

/-- FrameManager onFrameDetached: the map deletion runs first; calling
detach on the looked-up frame then throws a TypeError when the frameId was
unknown, else marks the frame detached and emits FrameDetached. -/
def FrameManager.onFrameDetached (s : FMState) (frameId : String) :
    FMState × Option HandlerError :=
  let s1 := { s with frames := mapDelete s.frames frameId }
  match mapGet s.frames frameId with
  | none => (s1, some .typeError)
  | some idx =>
    ({ s1 with arena := modifyNth (fun fr => { fr with detached := true }) idx s.arena,
               events := s.events ++ [.frameDetached idx] }, none)

/-- FrameManager onNavigationCommitted: dereferencing an unknown frame
throws a TypeError; otherwise updates url and name, records the committed
navigationId, clears the fired-events set and emits FrameNavigated. -/
def FrameManager.onNavigationCommitted (s : FMState)
    (frameId url name navigationId : String) : FMState × Option HandlerError :=
  match mapGet s.frames frameId with
  | none => (s, some .typeError)
  | some idx =>
    let committed := fun (fr : FrameObj) =>
      { fr with url := url, name := name,
                lastCommittedNavigationId := navigationId, firedEvents := [] }
    ({ s with arena := modifyNth committed idx s.arena,
              events := s.events ++ [.frameNavigated idx] }, none)

/-- FrameManager onSameDocumentNavigation: dereferencing an unknown frame
throws a TypeError; otherwise updates the url, keeps the name (the source
passes frame.name() back), and emits FrameNavigated. -/
def FrameManager.onSameDocumentNavigation (s : FMState) (frameId url : String) :
    FMState × Option HandlerError :=
  match mapGet s.frames frameId with
  | none => (s, some .typeError)
  | some idx =>
    ({ s with arena := modifyNth (fun fr => { fr with url := url }) idx s.arena,
              events := s.events ++ [.frameNavigated idx] }, none)

/-- FrameManager onEventFired: reading the FrameData of an unknown frame
throws a TypeError; otherwise adds the lowercased event name to the
fired-events set, and when the frame is the main frame emits Load exactly
for the original name load and DOMContentLoaded exactly for the original
name DOMContentLoaded. -/
def FrameManager.onEventFired (s : FMState) (frameId name : String) :
    FMState × Option HandlerError :=
  match mapGet s.frames frameId with
  | none => (s, some .typeError)
  | some idx =>
    let arena1 := modifyNth
      (fun fr => { fr with firedEvents := setAdd fr.firedEvents name.toLower }) idx s.arena
    let emitted : List DomainEvent :=
      if s.mainFrame = some idx then
        if name = "load" then [.load]
        else if name = "DOMContentLoaded" then [.domContentLoaded]
        else []
      else []
    ({ s with arena := arena1, events := s.events ++ emitted }, none)

/-- FrameManager onExecutionContextDestroyed: a silent no-op for an unknown
contextId; otherwise removes the registration (notifying the owning frame,
an effect outside this state, when one is set). -/
def FrameManager.onExecutionContextDestroyed (s : FMState) (contextId : String) :
    FMState × Option HandlerError :=
  match mapGet s.contexts contextId with
  | none => (s, none)
  | some _ => ({ s with contexts := mapDelete s.contexts contextId }, none)

/-- Empty FrameManager state: no frames, no contexts, no main frame. -/
def emptyFMState : FMState :=
  { frames := [], contexts := [], arena := [], mainFrame := none, events := [] }

/-- State after a single main-frame attach notification with frameId A. -/
def mainOnlyState : FMState :=
  { frames := [("A", 0)], contexts := [], arena := [newFrame "A" none],
    mainFrame := some 0, events := [DomainEvent.frameAttached 0] }

/-- State with a main frame A, a child frame B and one registered execution
context owned by the main frame. -/
def twoFrameState : FMState :=
  { frames := [("A", 0), ("B", 1)],
    contexts := [("ctx1", { frame := some 0 })],
    arena := [newFrame "A" none, newFrame "B" (some 0)],
    mainFrame := some 0,
    events := [DomainEvent.frameAttached 0, DomainEvent.frameAttached 1] }

/-- Run environment in which the next-navigation watchdog wins the first race
and reports a same-document navigation (empty navigationId). -/
def probeEnv : WaitForNavEnv :=
  { race1TimerFirst := false, nextDogOutcome := none, nextNavigationId := "",
    nextNavigationUrl := "u", race2TimerFirst := false, navDogOutcome := none,
    navDogResponse := none }

/-- Run environment of navigateFrame whose navigate command reports an empty
navigationId. -/
def probeNavEnv : NavigateEnv :=
  { navigationId := "", raceTimerFirst := false, navDogOutcome := none,
    navDogResponse := none }

/-- Run environment in which the armed timeout timer fires before the
next-navigation watchdog settles. -/
def timerWinsEnv : WaitForNavEnv :=
  { race1TimerFirst := true, nextDogOutcome := none, nextNavigationId := "n",
    nextNavigationUrl := "u", race2TimerFirst := false, navDogOutcome := none,
    navDogResponse := none }

/-- Looking a key up after mapSet of that key yields the new value. -/
theorem mapGet_mapSet_self {α : Type} (l : List (String × α)) (k : String) (v : α) :
    mapGet (mapSet l k v) k = some v := by
  induction l with
  | nil => simp [mapSet, mapGet]
  | cons hd tl ih =>
    obtain ⟨k0, v0⟩ := hd
    by_cases h : k0 = k <;> simp [mapSet, mapGet, h, ih]

/-- Looking a key up after mapDelete of that key yields none. -/
theorem mapGet_mapDelete_self {α : Type} (l : List (String × α)) (k : String) :
    mapGet (mapDelete l k) k = none := by
  induction l with
  | nil => simp [mapDelete, mapGet]
  | cons hd tl ih =>
    obtain ⟨k0, v0⟩ := hd
    by_cases h : k0 = k <;> simp [mapDelete, mapGet, h, ih]

/-- mapDelete leaves the binding of every other key unchanged. -/
theorem mapGet_mapDelete_ne {α : Type} (l : List (String × α)) (k k' : String)
    (h : k' ≠ k) : mapGet (mapDelete l k) k' = mapGet l k' := by
  induction l with
  | nil => simp [mapDelete]
  | cons hd tl ih =>
    obtain ⟨k0, v0⟩ := hd
    by_cases h0 : k0 = k
    · subst h0
      simp [mapDelete, mapGet, Ne.symm h, ih]
    · by_cases h1 : k0 = k'
      · subst h1
        simp [mapDelete, mapGet, h0]
      · simp [mapDelete, mapGet, h0, h1, ih]

/-- Reading the updated index after modifyNth yields the updated element. -/
theorem modifyNth_get_self {α : Type} (f : α → α) (l : List α) (n : Nat) :
    (modifyNth f n l)[n]? = l[n]?.map f := by
  induction l generalizing n with
  | nil => simp [modifyNth]
  | cons hd tl ih => cases n <;> simp [modifyNth, ih]

/-- An element just added by setAdd is a member of the set. -/
theorem setAdd_mem_self (s : List String) (x : String) : x ∈ setAdd s x := by
  by_cases h : x ∈ s <;> simp [setAdd, h]

/-- checkWaitUntil accepts a list whose tokens are all load or
domcontentloaded. -/
theorem checkWaitUntil_eq_none (l : List String)
    (h : ∀ t ∈ l, t = "load" ∨ t = "domcontentloaded") : checkWaitUntil l = none := by
  induction l with
  | nil => rfl
  | cons c rest ih =>
    have hc := h c (by simp)
    have hneg : ¬(c ≠ "load" ∧ c ≠ "domcontentloaded") := by tauto
    simp only [checkWaitUntil, if_neg hneg]
    exact ih (fun t ht => h t (by simp [ht]))

/-- checkWaitUntil rejects a list containing an unknown token, reporting one
of the unknown tokens in the error message. -/
theorem checkWaitUntil_bad (l : List String)
    (h : ∃ t ∈ l, t ≠ "load" ∧ t ≠ "domcontentloaded") :
    ∃ t, t ∈ l ∧ t ≠ "load" ∧ t ≠ "domcontentloaded" ∧
      checkWaitUntil l = some (.validationError ("Unknown waitUntil condition: " ++ t)) := by
  induction l with
  | nil => simp at h
  | cons c rest ih =>
    by_cases hc : c ≠ "load" ∧ c ≠ "domcontentloaded"
    · exact ⟨c, by simp, hc.1, hc.2, by simp only [checkWaitUntil, if_pos hc]⟩
    · obtain ⟨t, ht, hbad⟩ := h
      rcases List.mem_cons.mp ht with rfl | htr
      · exact absurd hbad hc
      · obtain ⟨t0, m0, b1, b2, heq⟩ := ih ⟨t, htr, hbad⟩
        exact ⟨t0, List.mem_cons_of_mem _ m0, b1, b2,
          by simp only [checkWaitUntil, if_neg hc]; exact heq⟩

/-- On every run of waitForFrameNavigation the final resource state has no
pending timer and no live watchdog. -/
theorem waitForFrameNavigation_state_clean (defaultTimeout : Nat) (opts : WaitOptions)
    (env : WaitForNavEnv) :
    (FrameManager.waitForFrameNavigation defaultTimeout opts env).2.timerPending = false ∧
    (FrameManager.waitForFrameNavigation defaultTimeout opts env).2.live = [] := by
  obtain ⟨r1, ndo, nid, nurl, r2, vdo, vresp⟩ := env
  unfold FrameManager.waitForFrameNavigation
  cases hn : normalizeWaitUntil (opts.waitUntil.getD (WaitUntilArg.list ["load"])) <;>
    simp only [hn] <;>
    cases ndo <;> cases vdo <;> cases r1 <;> cases r2 <;>
    by_cases ht : opts.timeout.getD defaultTimeout = 0 <;>
    by_cases hnid : nid = "" <;>
    simp_all [RtState.start, RtState.armTimer, RtState.clearTimer,
      RtState.createWatchdog, RtState.disposeWatchdog, List.erase]

/-- On every run of navigateFrame the final resource state has no pending
timer and no live watchdog. -/
theorem navigateFrame_state_clean (defaultTimeout : Nat) (frameId url : String)
    (opts : NavigateOptions) (env : NavigateEnv) :
    (FrameManager.navigateFrame defaultTimeout frameId url opts env).2.timerPending = false ∧
    (FrameManager.navigateFrame defaultTimeout frameId url opts env).2.live = [] := by
  obtain ⟨nid, r, vdo, vresp⟩ := env
  unfold FrameManager.navigateFrame
  cases hn : normalizeWaitUntil (opts.waitUntil.getD (WaitUntilArg.list ["load"])) <;>
    simp only [hn] <;>
    cases vdo <;> cases r <;>
    by_cases ht : opts.timeout.getD defaultTimeout = 0 <;>
    by_cases hnid : nid = "" <;>
    simp_all [RtState.start, RtState.armTimer, RtState.clearTimer, RtState.sendCommand,
      RtState.createWatchdog, RtState.disposeWatchdog, List.erase]

/-- Claim C1: on every execution of waitForFrameNavigation and of
navigateFrame, on every exit path (validation error, timeout thrown,
same-document resolution, watchdog resolution, or watchdog error
propagated), the final resource state has no pending timeout timer (every
armed timer was cleared) and no live watchdog (every watchdog the call
created was disposed). -/
theorem frameManager_wait_protocol_cleanup (defaultTimeout : Nat) (opts : WaitOptions)
    (env : WaitForNavEnv) (frameId url : String) (nopts : NavigateOptions)
    (nenv : NavigateEnv) :
    ((FrameManager.waitForFrameNavigation defaultTimeout opts env).2.timerPending = false ∧
     (FrameManager.waitForFrameNavigation defaultTimeout opts env).2.live = []) ∧
    ((FrameManager.navigateFrame defaultTimeout frameId url nopts nenv).2.timerPending = false ∧
     (FrameManager.navigateFrame defaultTimeout frameId url nopts nenv).2.live = []) :=
  ⟨waitForFrameNavigation_state_clean defaultTimeout opts env,
   navigateFrame_state_clean defaultTimeout frameId url nopts nenv⟩

/-- Claim C2: when the next-navigation watchdog wins the first race with no
error and yields an empty navigation identifier, waitForFrameNavigation
clears the timeout timer and resolves with no response value (null), and no
second (navigation-scoped) watchdog is ever created. -/
theorem waitForFrameNavigation_same_document (defaultTimeout : Nat) (opts : WaitOptions)
    (env : WaitForNavEnv) (wu : List String)
    (hok : normalizeWaitUntil (opts.waitUntil.getD (WaitUntilArg.list ["load"])) = .ok wu)
    (hdog : env.race1TimerFirst = false)
    (hout : env.nextDogOutcome = none)
    (hnav : env.nextNavigationId = "") :
    (FrameManager.waitForFrameNavigation defaultTimeout opts env).1 = .ok none ∧
    (FrameManager.waitForFrameNavigation defaultTimeout opts env).2.timerPending = false ∧
    WatchdogKind.navigation ∉
      (FrameManager.waitForFrameNavigation defaultTimeout opts env).2.created := by
  unfold FrameManager.waitForFrameNavigation
  by_cases ht : opts.timeout.getD defaultTimeout = 0 <;>
    simp [hok, hdog, hout, hnav, ht, RtState.start, RtState.armTimer, RtState.clearTimer,
      RtState.createWatchdog, RtState.disposeWatchdog]

/-- Witness for C2: a concrete same-document run resolves with null, with a
cleared timer and only the next-navigation watchdog ever created. -/
theorem waitForFrameNavigation_same_document_witness :
    (FrameManager.waitForFrameNavigation 30000 { timeout := none, waitUntil := none }
        probeEnv).1 = .ok none ∧
    (FrameManager.waitForFrameNavigation 30000 { timeout := none, waitUntil := none }
        probeEnv).2.timerPending = false ∧
    WatchdogKind.navigation ∉
      (FrameManager.waitForFrameNavigation 30000 { timeout := none, waitUntil := none }
        probeEnv).2.created :=
  waitForFrameNavigation_same_document 30000 { timeout := none, waitUntil := none }
    probeEnv ["load"] rfl rfl rfl rfl

/-- Claim C3: when the navigate command response carries an empty (falsy)
navigation identifier, navigateFrame returns immediately with no response
value, and its final resource state shows that no timer was ever armed and
no watchdog was ever created; only the navigate command itself was sent. -/
theorem navigateFrame_no_navigation (defaultTimeout : Nat) (frameId url : String)
    (opts : NavigateOptions) (env : NavigateEnv) (wu : List String)
    (hok : normalizeWaitUntil (opts.waitUntil.getD (WaitUntilArg.list ["load"])) = .ok wu)
    (hnav : env.navigationId = "") :
    FrameManager.navigateFrame defaultTimeout frameId url opts env =
      (.ok none,
        { timerArmed := false, timerPending := false, created := [], live := [],
          sent := ["Page.navigate " ++ frameId ++ " " ++ url] }) := by
  unfold FrameManager.navigateFrame
  simp [hok, hnav, RtState.start, RtState.sendCommand]

/-- Witness for C3: a concrete run of navigateFrame with an empty
navigationId in the command response. -/
theorem navigateFrame_no_navigation_witness :
    FrameManager.navigateFrame 30000 "frame1" "http://a/b" 
      { timeout := some 500, waitUntil := some (WaitUntilArg.single "load"), referer := none }
      probeNavEnv =
      (.ok none,
        { timerArmed := false, timerPending := false, created := [], live := [],
          sent := ["Page.navigate " ++ "frame1" ++ " " ++ "http://a/b"] }) :=
  navigateFrame_no_navigation 30000 "frame1" "http://a/b"
    { timeout := some 500, waitUntil := some (WaitUntilArg.single "load"), referer := none }
    probeNavEnv ["load"] rfl rfl

/-- Claim C4: for a frame-attached notification whose parent identifier is
unknown (null parent): when no main frame exists the new frame becomes the
main frame and is registered; when a main frame already exists the handler
fails with the fatal invariant-violation assertion and the state is left
unchanged (the second frame is not registered as main). -/
theorem onFrameAttached_null_parent (s : FMState) (frameId parentFrameId : String)
    (hp : mapGet s.frames parentFrameId = none) :
    (s.mainFrame = none →
      (FrameManager.onFrameAttached s frameId parentFrameId).2 = none ∧
      (FrameManager.onFrameAttached s frameId parentFrameId).1.mainFrame =
        some s.arena.length ∧
      mapGet (FrameManager.onFrameAttached s frameId parentFrameId).1.frames frameId =
        some s.arena.length ∧
      (FrameManager.onFrameAttached s frameId parentFrameId).1.events =
        s.events ++ [DomainEvent.frameAttached s.arena.length]) ∧
    (∀ m, s.mainFrame = some m →
      FrameManager.onFrameAttached s frameId parentFrameId =
        (s, some (.assertionError "INTERNAL ERROR: re-attaching main frame!"))) := by
  constructor
  · intro hm
    unfold FrameManager.onFrameAttached
    simp [hp, hm, mapGet_mapSet_self]
  · intro m hm
    unfold FrameManager.onFrameAttached
    simp [hp, hm]

/-- Witness for C4: attaching a main frame to the empty state succeeds and
records it as main; attaching a second parentless frame to a state that
already has a main frame yields the assertion error and no state change. -/
theorem onFrameAttached_null_parent_witness :
    (FrameManager.onFrameAttached emptyFMState "A" "").2 = none ∧
    (FrameManager.onFrameAttached emptyFMState "A" "").1.mainFrame = some 0 ∧
    FrameManager.onFrameAttached mainOnlyState "B" "" =
      (mainOnlyState, some (.assertionError "INTERNAL ERROR: re-attaching main frame!")) := by
  have h1 := onFrameAttached_null_parent emptyFMState "A" "" rfl
  have h2 := onFrameAttached_null_parent mainOnlyState "B" "" rfl
  exact ⟨(h1.1 rfl).1, (h1.1 rfl).2.1, h2.2 0 rfl⟩

/-- Claim C5: normalizeWaitUntil wraps a valid single token into a
one-element list, returns a list of valid tokens unchanged, and produces the
validation error (naming an offending token) whenever any token is not
exactly load or domcontentloaded; and in both wait entry points a
normalization error surfaces with the initial resource state, i.e. before
any command is sent, any timer is armed or any watchdog is created. -/
theorem normalizeWaitUntil_spec :
    (∀ t, (t = "load" ∨ t = "domcontentloaded") →
      normalizeWaitUntil (WaitUntilArg.single t) = .ok [t]) ∧
    (∀ l, (∀ t ∈ l, t = "load" ∨ t = "domcontentloaded") →
      normalizeWaitUntil (WaitUntilArg.list l) = .ok l) ∧
    (∀ arg, (∃ t ∈ arg.tokens, t ≠ "load" ∧ t ≠ "domcontentloaded") →
      ∃ t, t ∈ arg.tokens ∧ t ≠ "load" ∧ t ≠ "domcontentloaded" ∧
        normalizeWaitUntil arg =
          .error (.validationError ("Unknown waitUntil condition: " ++ t))) ∧
    (∀ defaultTimeout opts env e,
      normalizeWaitUntil (opts.waitUntil.getD (WaitUntilArg.list ["load"])) = .error e →
      FrameManager.waitForFrameNavigation defaultTimeout opts env =
        (.error e, RtState.start)) ∧
    (∀ defaultTimeout frameId url nopts nenv e,
      normalizeWaitUntil (nopts.waitUntil.getD (WaitUntilArg.list ["load"])) = .error e →
      FrameManager.navigateFrame defaultTimeout frameId url nopts nenv =
        (.error e, RtState.start)) := by
  refine ⟨?_, ?_, ?_, ?_, ?_⟩
  · intro t htv
    have hchk := checkWaitUntil_eq_none [t] (by simpa using htv)
    simp [normalizeWaitUntil, WaitUntilArg.tokens, hchk]
  · intro l hlv
    have hchk := checkWaitUntil_eq_none l hlv
    simp [normalizeWaitUntil, WaitUntilArg.tokens, hchk]
  · intro arg hbad
    obtain ⟨t, m, b1, b2, heq⟩ := checkWaitUntil_bad arg.tokens hbad
    exact ⟨t, m, b1, b2, by simp [normalizeWaitUntil, heq]⟩
  · intro defaultTimeout opts env e herr
    unfold FrameManager.waitForFrameNavigation
    simp [herr]
  · intro defaultTimeout frameId url nopts nenv e herr
    unfold FrameManager.navigateFrame
    simp [herr]

/-- Witness for C5: normalizing the single token load yields the singleton
list; a valid two-token list is unchanged; the token networkidle produces
the validation error; and a wait call with that token fails with the
validation error and the untouched initial resource state. -/
theorem normalizeWaitUntil_spec_witness :
    normalizeWaitUntil (WaitUntilArg.single "load") = .ok ["load"] ∧
    normalizeWaitUntil (WaitUntilArg.list ["load", "domcontentloaded"]) =
      .ok ["load", "domcontentloaded"] ∧
    normalizeWaitUntil (WaitUntilArg.single "networkidle") =
      .error (.validationError ("Unknown waitUntil condition: " ++ "networkidle")) ∧
    FrameManager.waitForFrameNavigation 30000
      { timeout := some 500, waitUntil := some (WaitUntilArg.single "networkidle") }
      probeEnv =
      (.error (.validationError ("Unknown waitUntil condition: " ++ "networkidle")),
        RtState.start) := by
  have h := normalizeWaitUntil_spec
  refine ⟨h.1 "load" (Or.inl rfl), h.2.1 _ (by decide), ?_, ?_⟩
  · obtain ⟨t, m, b1, b2, heq⟩ :=
      h.2.2.1 (WaitUntilArg.single "networkidle") ⟨"networkidle", by decide⟩
    have ht : t = "networkidle" := by simpa [WaitUntilArg.tokens] using m
    subst ht
    exact heq
  · exact h.2.2.2.1 30000
      { timeout := some 500, waitUntil := some (WaitUntilArg.single "networkidle") }
      probeEnv (.validationError ("Unknown waitUntil condition: " ++ "networkidle")) rfl

/-- When the timer is armed (nonzero timeout) and fires before the
next-navigation watchdog, waitForFrameNavigation fails with the TimeoutError
carrying the configured millisecond count. -/
theorem waitForFrameNavigation_timeout_race1 (defaultTimeout : Nat) (opts : WaitOptions)
    (env : WaitForNavEnv) (wu : List String)
    (ht : opts.timeout.getD defaultTimeout ≠ 0)
    (hr : env.race1TimerFirst = true)
    (hok : normalizeWaitUntil (opts.waitUntil.getD (WaitUntilArg.list ["load"])) = .ok wu) :
    (FrameManager.waitForFrameNavigation defaultTimeout opts env).1 =
      .error (.timeoutError (timeoutMessage (opts.timeout.getD defaultTimeout))) := by
  unfold FrameManager.waitForFrameNavigation
  simp [hok, hr, ht]

/-- When the timer is armed, the first race is won cleanly by the watchdog
with a real navigation identifier, and the timer then fires before the
second watchdog, waitForFrameNavigation fails with the TimeoutError. -/
theorem waitForFrameNavigation_timeout_race2 (defaultTimeout : Nat) (opts : WaitOptions)
    (env : WaitForNavEnv) (wu : List String)
    (ht : opts.timeout.getD defaultTimeout ≠ 0)
    (hr1 : env.race1TimerFirst = false)
    (hout : env.nextDogOutcome = none)
    (hnid : env.nextNavigationId ≠ "")
    (hr2 : env.race2TimerFirst = true)
    (hok : normalizeWaitUntil (opts.waitUntil.getD (WaitUntilArg.list ["load"])) = .ok wu) :
    (FrameManager.waitForFrameNavigation defaultTimeout opts env).1 =
      .error (.timeoutError (timeoutMessage (opts.timeout.getD defaultTimeout))) := by
  unfold FrameManager.waitForFrameNavigation
  simp [hok, hr1, hout, hnid, hr2, ht]

/-- When the timer is armed after a real navigation identifier and fires
before the navigation watchdog, navigateFrame fails with the TimeoutError. -/
theorem navigateFrame_timeout (defaultTimeout : Nat) (frameId url : String)
    (opts : NavigateOptions) (env : NavigateEnv) (wu : List String)
    (ht : opts.timeout.getD defaultTimeout ≠ 0)
    (hnid : env.navigationId ≠ "")
    (hr : env.raceTimerFirst = true)
    (hok : normalizeWaitUntil (opts.waitUntil.getD (WaitUntilArg.list ["load"])) = .ok wu) :
    (FrameManager.navigateFrame defaultTimeout frameId url opts env).1 =
      .error (.timeoutError (timeoutMessage (opts.timeout.getD defaultTimeout))) := by
  unfold FrameManager.navigateFrame
  simp [hok, hnid, hr, ht]

/-- With an effective timeout of zero, waitForFrameNavigation never arms a
timer. -/
theorem waitForFrameNavigation_zero_no_timer (defaultTimeout : Nat) (opts : WaitOptions)
    (env : WaitForNavEnv) (ht : opts.timeout.getD defaultTimeout = 0) :
    (FrameManager.waitForFrameNavigation defaultTimeout opts env).2.timerArmed = false := by
  obtain ⟨r1, ndo, nid, nurl, r2, vdo, vresp⟩ := env
  unfold FrameManager.waitForFrameNavigation
  cases hn : normalizeWaitUntil (opts.waitUntil.getD (WaitUntilArg.list ["load"])) <;>
    simp only [hn] <;>
    cases ndo <;> cases vdo <;> cases r1 <;> cases r2 <;>
    by_cases hnid : nid = "" <;>
    simp_all [RtState.start, RtState.armTimer, RtState.clearTimer,
      RtState.createWatchdog, RtState.disposeWatchdog]

/-- With an effective timeout of zero, navigateFrame never arms a timer. -/
theorem navigateFrame_zero_no_timer (defaultTimeout : Nat) (frameId url : String)
    (opts : NavigateOptions) (env : NavigateEnv)
    (ht : opts.timeout.getD defaultTimeout = 0) :
    (FrameManager.navigateFrame defaultTimeout frameId url opts env).2.timerArmed = false := by
  obtain ⟨nid, r, vdo, vresp⟩ := env
  unfold FrameManager.navigateFrame
  cases hn : normalizeWaitUntil (opts.waitUntil.getD (WaitUntilArg.list ["load"])) <;>
    simp only [hn] <;>
    cases vdo <;> cases r <;>
    by_cases hnid : nid = "" <;>
    simp_all [RtState.start, RtState.armTimer, RtState.clearTimer, RtState.sendCommand,
      RtState.createWatchdog, RtState.disposeWatchdog]

/-- Claim C6: for a nonzero effective timeout t, whichever race the timer
wins (the first or second race of waitForFrameNavigation, or the single race
of navigateFrame), the call fails with a timeout-kind error whose message
contains the decimal representation of t; and a zero effective timeout arms
no timer at all in either entry point. -/
theorem navigation_timeout_spec (defaultTimeout : Nat) (opts : WaitOptions)
    (env : WaitForNavEnv) (frameId url : String) (nopts : NavigateOptions)
    (nenv : NavigateEnv) :
    (∃ a b, timeoutMessage (opts.timeout.getD defaultTimeout) =
      a ++ toString (opts.timeout.getD defaultTimeout) ++ b) ∧
    (opts.timeout.getD defaultTimeout ≠ 0 → env.race1TimerFirst = true →
      (∃ wu, normalizeWaitUntil (opts.waitUntil.getD (WaitUntilArg.list ["load"])) = .ok wu) →
      (FrameManager.waitForFrameNavigation defaultTimeout opts env).1 =
        .error (.timeoutError (timeoutMessage (opts.timeout.getD defaultTimeout)))) ∧
    (opts.timeout.getD defaultTimeout ≠ 0 → env.race1TimerFirst = false →
      env.nextDogOutcome = none → env.nextNavigationId ≠ "" →
      env.race2TimerFirst = true →
      (∃ wu, normalizeWaitUntil (opts.waitUntil.getD (WaitUntilArg.list ["load"])) = .ok wu) →
      (FrameManager.waitForFrameNavigation defaultTimeout opts env).1 =
        .error (.timeoutError (timeoutMessage (opts.timeout.getD defaultTimeout)))) ∧
    (nopts.timeout.getD defaultTimeout ≠ 0 → nenv.navigationId ≠ "" →
      nenv.raceTimerFirst = true →
      (∃ wu, normalizeWaitUntil (nopts.waitUntil.getD (WaitUntilArg.list ["load"])) = .ok wu) →
      (FrameManager.navigateFrame defaultTimeout frameId url nopts nenv).1 =
        .error (.timeoutError (timeoutMessage (nopts.timeout.getD defaultTimeout)))) ∧
    (opts.timeout.getD defaultTimeout = 0 →
      (FrameManager.waitForFrameNavigation defaultTimeout opts env).2.timerArmed = false) ∧
    (nopts.timeout.getD defaultTimeout = 0 →
      (FrameManager.navigateFrame defaultTimeout frameId url nopts nenv).2.timerArmed =
        false) := by
  refine ⟨⟨"Navigation timeout of ", " ms exceeded", rfl⟩, ?_, ?_, ?_, ?_, ?_⟩
  · rintro ht hr ⟨wu, hok⟩
    exact waitForFrameNavigation_timeout_race1 defaultTimeout opts env wu ht hr hok
  · rintro ht hr1 hout hnid hr2 ⟨wu, hok⟩
    exact waitForFrameNavigation_timeout_race2 defaultTimeout opts env wu ht hr1 hout
      hnid hr2 hok
  · rintro ht hnid hr ⟨wu, hok⟩
    exact navigateFrame_timeout defaultTimeout frameId url nopts nenv wu ht hnid hr hok
  · intro ht
    exact waitForFrameNavigation_zero_no_timer defaultTimeout opts env ht
  · intro ht
    exact navigateFrame_zero_no_timer defaultTimeout frameId url nopts nenv ht

/-- Witness for C6: with timeout 500 and the timer winning the first race,
the call fails with the TimeoutError whose message contains 500; and a
navigateFrame call with timeout 0 never arms a timer. -/
theorem navigation_timeout_spec_witness :
    (FrameManager.waitForFrameNavigation 30000 { timeout := some 500, waitUntil := none }
        timerWinsEnv).1 = .error (.timeoutError (timeoutMessage 500)) ∧
    timeoutMessage 500 = "Navigation timeout of " ++ "500" ++ " ms exceeded" ∧
    (FrameManager.navigateFrame 30000 "f" "u"
        { timeout := some 0, waitUntil := none, referer := none }
        { navigationId := "n", raceTimerFirst := false, navDogOutcome := none,
          navDogResponse := none }).2.timerArmed = false := by
  have h := navigation_timeout_spec 30000 { timeout := some 500, waitUntil := none }
    timerWinsEnv "f" "u" { timeout := some 0, waitUntil := none, referer := none }
    { navigationId := "n", raceTimerFirst := false, navDogOutcome := none,
      navDogResponse := none }
  exact ⟨h.2.1 (by decide) rfl ⟨["load"], rfl⟩, rfl, h.2.2.2.2.2 rfl⟩

/-- Claim C7: an event-fired notification for a known frame adds the
lowercased event name to that frame's fired-events set and never throws; the
count of emitted Load domain events increases by one exactly when the frame
is the main frame and the original name is exactly load, the count of
DOMContentLoaded events increases by one exactly when the frame is the main
frame and the original name is exactly DOMContentLoaded, and on a non-main
frame neither count changes. -/
theorem onEventFired_spec (s : FMState) (frameId name : String) (idx : Nat) (fr : FrameObj)
    (hf : mapGet s.frames frameId = some idx)
    (ha : s.arena[idx]? = some fr) :
    (FrameManager.onEventFired s frameId name).2 = none ∧
    (FrameManager.onEventFired s frameId name).1.arena[idx]? =
      some { fr with firedEvents := setAdd fr.firedEvents name.toLower } ∧
    name.toLower ∈ setAdd fr.firedEvents name.toLower ∧
    (FrameManager.onEventFired s frameId name).1.events.count DomainEvent.load =
      s.events.count DomainEvent.load +
        (if s.mainFrame = some idx ∧ name = "load" then 1 else 0) ∧
    (FrameManager.onEventFired s frameId name).1.events.count DomainEvent.domContentLoaded =
      s.events.count DomainEvent.domContentLoaded +
        (if s.mainFrame = some idx ∧ name = "DOMContentLoaded" then 1 else 0) := by
  refine ⟨?_, ?_, setAdd_mem_self _ _, ?_, ?_⟩
  · unfold FrameManager.onEventFired
    simp [hf]
  · unfold FrameManager.onEventFired
    simp [hf, modifyNth_get_self, ha]
  · unfold FrameManager.onEventFired
    by_cases hm : s.mainFrame = some idx <;>
      by_cases h1 : name = "load" <;>
      by_cases h2 : name = "DOMContentLoaded" <;>
      simp_all [List.count_append, List.count_cons, List.count_nil]
  · unfold FrameManager.onEventFired
    by_cases hm : s.mainFrame = some idx <;>
      by_cases h1 : name = "load" <;>
      by_cases h2 : name = "DOMContentLoaded" <;>
      simp_all [List.count_append, List.count_cons, List.count_nil]

/-- Witness for C7: firing load on the main frame emits exactly one extra
Load event; firing load on a non-main frame emits none. -/
theorem onEventFired_spec_witness :
    (FrameManager.onEventFired twoFrameState "A" "load").2 = none ∧
    (FrameManager.onEventFired twoFrameState "A" "load").1.events.count DomainEvent.load =
      twoFrameState.events.count DomainEvent.load + 1 ∧
    (FrameManager.onEventFired twoFrameState "B" "load").1.events.count DomainEvent.load =
      twoFrameState.events.count DomainEvent.load := by
  have h1 := onEventFired_spec twoFrameState "A" "load" 0 (newFrame "A" none) rfl rfl
  have h2 := onEventFired_spec twoFrameState "B" "load" 1 (newFrame "B" (some 0)) rfl rfl
  refine ⟨h1.1, ?_, ?_⟩
  · rw [h1.2.2.2.1, if_pos ⟨rfl, rfl⟩]
  · rw [h2.2.2.2.1, if_neg (by decide)]
    exact Nat.add_zero _

/-- Claim C8: a frame-detached notification for a known frame removes
exactly that frame from the identifier map (every other binding, including
bindings of descendant frames, is unchanged), marks the frame object
detached, emits one FrameDetached event, and leaves the main-frame
reference and the context map untouched. -/
theorem onFrameDetached_spec (s : FMState) (frameId : String) (idx : Nat) (fr : FrameObj)
    (hf : mapGet s.frames frameId = some idx)
    (ha : s.arena[idx]? = some fr) :
    (FrameManager.onFrameDetached s frameId).2 = none ∧
    mapGet (FrameManager.onFrameDetached s frameId).1.frames frameId = none ∧
    (∀ other, other ≠ frameId →
      mapGet (FrameManager.onFrameDetached s frameId).1.frames other =
        mapGet s.frames other) ∧
    (FrameManager.onFrameDetached s frameId).1.arena[idx]? =
      some { fr with detached := true } ∧
    (FrameManager.onFrameDetached s frameId).1.events =
      s.events ++ [DomainEvent.frameDetached idx] ∧
    (FrameManager.onFrameDetached s frameId).1.mainFrame = s.mainFrame ∧
    (FrameManager.onFrameDetached s frameId).1.contexts = s.contexts := by
  refine ⟨?_, ?_, ?_, ?_, ?_, ?_, ?_⟩
  · unfold FrameManager.onFrameDetached
    simp [hf]
  · unfold FrameManager.onFrameDetached
    simp [hf, mapGet_mapDelete_self]
  · intro other hother
    unfold FrameManager.onFrameDetached
    simp [hf, mapGet_mapDelete_ne _ _ _ hother]
  · unfold FrameManager.onFrameDetached
    simp [hf, modifyNth_get_self, ha]
  · unfold FrameManager.onFrameDetached
    simp [hf]
  · unfold FrameManager.onFrameDetached
    simp [hf]
  · unfold FrameManager.onFrameDetached
    simp [hf]

/-- Witness for C8: detaching the child frame B removes only its binding
(the main frame binding survives) and marks the B object detached. -/
theorem onFrameDetached_spec_witness :
    (FrameManager.onFrameDetached twoFrameState "B").2 = none ∧
    mapGet (FrameManager.onFrameDetached twoFrameState "B").1.frames "B" = none ∧
    mapGet (FrameManager.onFrameDetached twoFrameState "B").1.frames "A" = some 0 ∧
    (FrameManager.onFrameDetached twoFrameState "B").1.arena[1]? =
      some { newFrame "B" (some 0) with detached := true } := by
  have h := onFrameDetached_spec twoFrameState "B" 1 (newFrame "B" (some 0)) rfl rfl
  refine ⟨h.1, h.2.1, ?_, h.2.2.2.1⟩
  rw [h.2.2.1 "A" (by decide)]
  rfl

/-- Claim C9: the frame-scoped handlers for navigation-committed,
same-document-navigation, event-fired and frame-detached all dereference a
missing frame and throw a TypeError when the frame identifier is unknown,
whereas the execution-context-destroyed handler is a silent no-op for an
unknown context identifier. -/
theorem handlers_throw_on_unknown_frame (s : FMState) (fid cid url name navId : String)
    (hf : mapGet s.frames fid = none)
    (hc : mapGet s.contexts cid = none) :
    (FrameManager.onNavigationCommitted s fid url name navId).2 = some .typeError ∧
    (FrameManager.onSameDocumentNavigation s fid url).2 = some .typeError ∧
    (FrameManager.onEventFired s fid name).2 = some .typeError ∧
    (FrameManager.onFrameDetached s fid).2 = some .typeError ∧
    FrameManager.onExecutionContextDestroyed s cid = (s, none) := by
  unfold FrameManager.onNavigationCommitted FrameManager.onSameDocumentNavigation
    FrameManager.onEventFired FrameManager.onFrameDetached
    FrameManager.onExecutionContextDestroyed
  simp [hf, hc]

/-- Witness for C9: an unknown frame identifier makes navigation-committed
and frame-detached throw, while an unknown context identifier leaves the
state untouched with no error. -/
theorem handlers_throw_on_unknown_frame_witness :
    (FrameManager.onNavigationCommitted twoFrameState "Z" "u" "n" "nav1").2 =
      some .typeError ∧
    (FrameManager.onFrameDetached twoFrameState "Z").2 = some .typeError ∧
    FrameManager.onExecutionContextDestroyed twoFrameState "zz" = (twoFrameState, none) := by
  have h := handlers_throw_on_unknown_frame twoFrameState "Z" "zz" "u" "n" "nav1" rfl rfl
  exact ⟨h.1, h.2.2.2.1, h.2.2.2.2⟩

/-- If normalization succeeds, a next-navigation watchdog is always
created by waitForFrameNavigation. -/
theorem waitForFrameNavigation_creates_next_dog (defaultTimeout : Nat) (opts : WaitOptions)
    (env : WaitForNavEnv) (wu : List String)
    (hok : normalizeWaitUntil (opts.waitUntil.getD (WaitUntilArg.list ["load"])) = .ok wu) :
    WatchdogKind.nextNavigation ∈
      (FrameManager.waitForFrameNavigation defaultTimeout opts env).2.created := by
  obtain ⟨r1, ndo, nid, nurl, r2, vdo, vresp⟩ := env
  unfold FrameManager.waitForFrameNavigation
  simp only [hok]
  cases ndo <;> cases vdo <;> cases r1 <;> cases r2 <;>
    by_cases ht : opts.timeout.getD defaultTimeout = 0 <;>
    by_cases hnid : nid = "" <;>
    simp_all [RtState.start, RtState.armTimer, RtState.clearTimer,
      RtState.createWatchdog, RtState.disposeWatchdog]

/-- If normalization succeeds, navigateFrame always sends the navigate
command. -/
theorem navigateFrame_sends_navigate (defaultTimeout : Nat) (frameId url : String)
    (opts : NavigateOptions) (env : NavigateEnv) (wu : List String)
    (hok : normalizeWaitUntil (opts.waitUntil.getD (WaitUntilArg.list ["load"])) = .ok wu) :
    (FrameManager.navigateFrame defaultTimeout frameId url opts env).2.sent =
      ["Page.navigate " ++ frameId ++ " " ++ url] := by
  obtain ⟨nid, r, vdo, vresp⟩ := env
  unfold FrameManager.navigateFrame
  simp only [hok]
  cases vdo <;> cases r <;>
    by_cases ht : opts.timeout.getD defaultTimeout = 0 <;>
    by_cases hnid : nid = "" <;>
    simp_all [RtState.start, RtState.armTimer, RtState.clearTimer, RtState.sendCommand,
      RtState.createWatchdog, RtState.disposeWatchdog]

/-- Claim C10: normalizeWaitUntil applied to the empty list returns the
empty list with no validation error, so both entry points accept an empty
waitUntil list and proceed: waitForFrameNavigation still creates its
next-navigation watchdog and navigateFrame still sends the navigate
command. -/
theorem waitUntil_empty_list_accepted :
    normalizeWaitUntil (WaitUntilArg.list []) = .ok [] ∧
    (∀ defaultTimeout opts env, opts.waitUntil = some (WaitUntilArg.list []) →
      WatchdogKind.nextNavigation ∈
        (FrameManager.waitForFrameNavigation defaultTimeout opts env).2.created) ∧
    (∀ defaultTimeout frameId url nopts nenv,
      nopts.waitUntil = some (WaitUntilArg.list []) →
      (FrameManager.navigateFrame defaultTimeout frameId url nopts nenv).2.sent =
        ["Page.navigate " ++ frameId ++ " " ++ url]) := by
  refine ⟨rfl, ?_, ?_⟩
  · intro defaultTimeout opts env hwu
    exact waitForFrameNavigation_creates_next_dog defaultTimeout opts env []
      (by rw [hwu]; rfl)
  · intro defaultTimeout frameId url nopts nenv hwu
    exact navigateFrame_sends_navigate defaultTimeout frameId url nopts nenv []
      (by rw [hwu]; rfl)

/-- Witness for C10: concrete calls with an explicitly empty waitUntil list
still create the next-navigation watchdog and still send the navigate
command. -/
theorem waitUntil_empty_list_accepted_witness :
    WatchdogKind.nextNavigation ∈
      (FrameManager.waitForFrameNavigation 30000
        { timeout := some 500, waitUntil := some (WaitUntilArg.list []) }
        probeEnv).2.created ∧
    (FrameManager.navigateFrame 30000 "f" "u"
      { timeout := some 500, waitUntil := some (WaitUntilArg.list []), referer := none }
      probeNavEnv).2.sent = ["Page.navigate " ++ "f" ++ " " ++ "u"] := by
  have h := waitUntil_empty_list_accepted
  exact ⟨h.2.1 30000 { timeout := some 500, waitUntil := some (WaitUntilArg.list []) }
      probeEnv rfl,
    h.2.2 30000 "f" "u"
      { timeout := some 500, waitUntil := some (WaitUntilArg.list []), referer := none }
      probeNavEnv rfl⟩
